import Mathlib

/-!
Shallow embedding of the granite-measurement-app core, translated from the
repository source:

* `src/src/utils/calculationEngine.js` — divisibility adjusters, the five
  per-customer-type calculation strategies, input validation and routing;
* `src/unnamed/part_014` (SlabEntry model) — per-sheet serial number
  allocation for single and batch inserts;
* `src/server/database/schema.sql` — the `update_measurement_sheet_total`
  trigger that recomputes a sheet's total area after entry mutations;
* `src/server/config/redis.js` — the cache wrapper that degrades to a
  no-op on every underlying failure.

JavaScript numbers are modelled as exact rationals (`ℚ`); all values that
occur in the claims are far below any magnitude where IEEE-754 rounding
would diverge from the rational computation.  Fallible code is modelled
with `Except`.
-/

/-- JavaScript truncation toward zero (`Math.trunc`, and the truncation
implicit in the JS `%` operator). -/
def jsTrunc (q : ℚ) : ℤ := if 0 ≤ q then ⌊q⌋ else ⌈q⌉

/-- The JavaScript remainder `q % 3`: `q - 3 * trunc (q / 3)`. -/
def jsMod3 (q : ℚ) : ℚ := q - 3 * (jsTrunc (q / 3) : ℚ)

/-- JavaScript `Math.round`: rounds half toward positive infinity,
`Math.round x = ⌊x + 1/2⌋`. -/
def jsRound (q : ℚ) : ℤ := ⌊q + 1 / 2⌋

/-- Rounding to two decimal places as done by every strategy:
`Math.round(squareFeet * 100) / 100`. -/
def round2 (q : ℚ) : ℚ := (jsRound (q * 100) : ℚ) / 100

/-- `const maxIterations = 100` in both divisibility adjusters. -/
def maxIterations : ℕ := 100

/-- The `while (processedLength % 3 !== 0 && processedLength > 0 &&
iterations < maxIterations)` loop shared (textually duplicated) by
`processLengthForDivisibility` and `processBreadthForDivisibility`.
The loop body runs at most `maxIterations` times because of the
`iterations < maxIterations` guard, so structural fuel of `101` (with
`iterations` starting at `0`) is never exhausted: the fuel-`0` branch is
unreachable (see `divLoop_fuel_irrelevant`). -/
def divLoop : ℕ → ℚ → ℕ → ℚ × ℕ
  | 0, v, iterations => (v, iterations)
  | fuel + 1, v, iterations =>
    if jsMod3 v ≠ 0 ∧ 0 < v ∧ iterations < maxIterations then
      divLoop fuel (v - 1) (iterations + 1)
    else
      (v, iterations)

/-- `processLengthForDivisibility` from `calculationEngine.js` lines 13-40.
The `try`/`catch` of the source cannot fire on rational arithmetic and is
dropped. -/
def processLengthForDivisibility (length : ℚ) : ℚ :=
  if length < 3 then 0
  else
    let r := divLoop 101 (length - 3) 0
    if maxIterations ≤ r.2 then 0
    else max r.1 0

/-- `processBreadthForDivisibility` from `calculationEngine.js` lines 47-74. -/
def processBreadthForDivisibility (breadth : ℚ) : ℚ :=
  if breadth < 2 then 0
  else
    let r := divLoop 101 (breadth - 2) 0
    if maxIterations ≤ r.2 then 0
    else max r.1 0

/-- The record of numeric fields of the result object every strategy
returns.  The `calculationSteps` and `rawCalculation` fields of the source
are display strings derived from the same numbers; no claim mentions them
and they are omitted. -/
structure CalcResult where
  finalLength : ℚ
  finalBreadth : ℚ
  squareFeet : ℚ
deriving DecidableEq, Repr

/-- The observable error kinds of `calculateSquareFeet`:
`error.type === 'validation'` carrying the collected violation messages,
or `error.type === 'calculation'` (every non-validation throw is rewrapped
with that type by the outer `catch`). -/
inductive CalcError where
  | validation (details : List String)
  | calculation
deriving DecidableEq, Repr

/-- `CUSTOMER_TYPES` from `src/src/utils/constants.js`. -/
def CUSTOMER_TYPES_RETAIL : String := "retail"

def CUSTOMER_TYPES_GRANITE_SHOPS : String := "granite_shops"

def CUSTOMER_TYPES_BUILDERS : String := "builders"

def CUSTOMER_TYPES_OUTSTATION_PARTIES : String := "outstation_parties"

def CUSTOMER_TYPES_EXPORTERS : String := "exporters"

/-- `Object.values(CUSTOMER_TYPES)`, in declaration order. -/
def customerTypeValues : List String :=
  [CUSTOMER_TYPES_RETAIL, CUSTOMER_TYPES_GRANITE_SHOPS, CUSTOMER_TYPES_BUILDERS,
    CUSTOMER_TYPES_OUTSTATION_PARTIES, CUSTOMER_TYPES_EXPORTERS]

/-- `calculateRetail` (lines 82-110): direct `L×B÷144`.  The
`!isFinite(squareFeet)` half of the defensive check cannot fire on exact
rationals, leaving the `squareFeet < 0` test. -/
def calculateRetail (length breadth : ℚ) : Except CalcError CalcResult :=
  let finalLength := length
  let finalBreadth := breadth
  let squareInches := finalLength * finalBreadth
  let squareFeet := squareInches / 144
  if squareFeet < 0 then Except.error CalcError.calculation
  else Except.ok ⟨finalLength, finalBreadth, round2 squareFeet⟩

/-- `calculateGraniteShops` (lines 118-157): length-3 / breadth-2 with
divisibility-by-3 adjustment. -/
def calculateGraniteShops (length breadth : ℚ) : Except CalcError CalcResult :=
  let finalLength := processLengthForDivisibility length
  let finalBreadth := processBreadthForDivisibility breadth
  let squareInches := finalLength * finalBreadth
  let squareFeet := squareInches / 144
  if squareFeet < 0 then Except.error CalcError.calculation
  else Except.ok ⟨finalLength, finalBreadth, round2 squareFeet⟩

/-- `calculateBuilders` (lines 165-202): adjusted length, original breadth. -/
def calculateBuilders (length breadth : ℚ) : Except CalcError CalcResult :=
  let finalLength := processLengthForDivisibility length
  let finalBreadth := breadth
  let squareInches := finalLength * finalBreadth
  let squareFeet := squareInches / 144
  if squareFeet < 0 then Except.error CalcError.calculation
  else Except.ok ⟨finalLength, finalBreadth, round2 squareFeet⟩

/-- `calculateExporters` (lines 210-249): plain `max(L-3,0)` and
`max(B-2,0)` deductions, no divisibility pass. -/
def calculateExporters (length breadth : ℚ) : Except CalcError CalcResult :=
  let finalLength := max (length - 3) 0
  let finalBreadth := max (breadth - 2) 0
  let squareInches := finalLength * finalBreadth
  let squareFeet := squareInches / 144
  if squareFeet < 0 then Except.error CalcError.calculation
  else Except.ok ⟨finalLength, finalBreadth, round2 squareFeet⟩

/-- `calculateOutstationParties` (lines 257-259): delegates to
`calculateGraniteShops`. -/
def calculateOutstationParties (length breadth : ℚ) : Except CalcError CalcResult :=
  calculateGraniteShops length breadth

/-- The length-validation messages of `calculateSquareFeet` (lines 277-289).
The input is modelled as an already-numeric value, so the
`null`/`undefined`/`''` "required" branch and the `isNaN` branch of the
source are outside the model (they cannot fire on a number). -/
def lengthValidationErrors (numLength : ℚ) : List String :=
  if numLength ≤ 0 then ["Length must be greater than 0"]
  else if 10000 < numLength then ["Length cannot exceed 10,000 inches"]
  else []

/-- The breadth-validation messages (lines 291-303). -/
def breadthValidationErrors (numBreadth : ℚ) : List String :=
  if numBreadth ≤ 0 then ["Breadth must be greater than 0"]
  else if 10000 < numBreadth then ["Breadth cannot exceed 10,000 inches"]
  else []

/-- The customer-type-validation messages (lines 305-310); `!customerType`
on a string is the empty-string test. -/
def customerTypeValidationErrors (customerType : String) : List String :=
  if customerType = "" then ["Customer type is required"]
  else if customerType ∉ customerTypeValues then
    ["Invalid customer type: " ++ customerType ++ ". Valid types are: " ++
      String.intercalate ", " customerTypeValues]
  else []

/-- `calculationEngine.calculateSquareFeet` (lines 272-365): collect all
validation violations, throw a single `type: 'validation'` error when any
exist, otherwise route to the strategy for the customer type.  The
`default` branch of the source `switch` throws an error of type
`'unsupported_customer_type'`, which the enclosing `catch` rewraps into a
`type: 'calculation'` error before it reaches the caller. -/
def calculateSquareFeet (length breadth : ℚ) (customerType : String) :
    Except CalcError CalcResult :=
  let validationErrors :=
    lengthValidationErrors length ++ breadthValidationErrors breadth ++
      customerTypeValidationErrors customerType
  if validationErrors ≠ [] then Except.error (CalcError.validation validationErrors)
  else if customerType = CUSTOMER_TYPES_RETAIL then calculateRetail length breadth
  else if customerType = CUSTOMER_TYPES_GRANITE_SHOPS then calculateGraniteShops length breadth
  else if customerType = CUSTOMER_TYPES_BUILDERS then calculateBuilders length breadth
  else if customerType = CUSTOMER_TYPES_EXPORTERS then calculateExporters length breadth
  else if customerType = CUSTOMER_TYPES_OUTSTATION_PARTIES then
    calculateOutstationParties length breadth
  else Except.error CalcError.calculation

/-- One unfolding of the loop. -/
lemma divLoop_succ (fuel : ℕ) (v : ℚ) (iterations : ℕ) :
    divLoop (fuel + 1) v iterations =
      if jsMod3 v ≠ 0 ∧ 0 < v ∧ iterations < maxIterations then
        divLoop fuel (v - 1) (iterations + 1)
      else (v, iterations) := rfl

/-- The fuel is an artifact of the embedding: as long as it exceeds the
number of passes the `iterations < maxIterations` guard allows, its exact
value does not matter. -/
lemma divLoop_fuel_irrelevant (fuel₁ : ℕ) :
    ∀ fuel₂ v iterations, 100 < fuel₁ + iterations → 100 < fuel₂ + iterations →
      divLoop fuel₁ v iterations = divLoop fuel₂ v iterations := by
  induction fuel₁ with
  | zero =>
    intro fuel₂ v iterations h₁ h₂
    cases fuel₂ with
    | zero => rfl
    | succ f₂ =>
      rw [divLoop, divLoop_succ, if_neg]
      rintro ⟨-, -, hlt⟩
      simp only [maxIterations] at hlt
      omega
  | succ f₁ ih =>
    intro fuel₂ v iterations h₁ h₂
    cases fuel₂ with
    | zero =>
      rw [divLoop, divLoop_succ, if_neg]
      rintro ⟨-, -, hlt⟩
      simp only [maxIterations] at hlt
      omega
    | succ f₂ =>
      rw [divLoop_succ, divLoop_succ]
      by_cases hc : jsMod3 v ≠ 0 ∧ 0 < v ∧ iterations < maxIterations
      · rw [if_pos hc, if_pos hc]
        exact ih f₂ (v - 1) (iterations + 1) (by omega) (by omega)
      · rw [if_neg hc, if_neg hc]

/-- On exit (with enough fuel), the loop condition is false: the final
value is a JS-multiple of 3, or non-positive, or the iteration ceiling was
hit. -/
lemma divLoop_post (fuel : ℕ) :
    ∀ (v : ℚ) (iterations : ℕ), 100 < fuel + iterations →
      jsMod3 (divLoop fuel v iterations).1 = 0 ∨
        (divLoop fuel v iterations).1 ≤ 0 ∨
        maxIterations ≤ (divLoop fuel v iterations).2 := by
  induction fuel with
  | zero =>
    intro v iterations h
    right; right
    simp only [divLoop, maxIterations]
    omega
  | succ f ih =>
    intro v iterations h
    rw [divLoop_succ]
    by_cases hc : jsMod3 v ≠ 0 ∧ 0 < v ∧ iterations < maxIterations
    · rw [if_pos hc]
      exact ih (v - 1) (iterations + 1) (by omega)
    · rw [if_neg hc]
      push_neg at hc
      by_cases h0 : jsMod3 v = 0
      · exact Or.inl h0
      · by_cases hv : 0 < v
        · exact Or.inr (Or.inr (hc h0 hv))
        · exact Or.inr (Or.inl (le_of_not_lt hv))

/-- A non-positive value exits the loop immediately. -/
lemma divLoop_nonpos (fuel : ℕ) (v : ℚ) (iterations : ℕ) (h : v ≤ 0) :
    divLoop fuel v iterations = (v, iterations) := by
  cases fuel with
  | zero => rfl
  | succ f =>
    rw [divLoop_succ, if_neg]
    rintro ⟨-, hv, -⟩
    exact absurd h (not_le.mpr hv)

/-- JS truncation agrees with integer division on non-negative integers. -/
lemma jsTrunc_intCast_div_three (v : ℤ) (h : 0 ≤ v) : jsTrunc ((v : ℚ) / 3) = v / 3 := by
  unfold jsTrunc
  rw [if_pos (div_nonneg (by exact_mod_cast h) (by norm_num))]
  have h3 := Rat.floor_intCast_div_natCast v 3
  simpa using h3

/-- The JS remainder agrees with the mathematical remainder on
non-negative integers. -/
lemma jsMod3_intCast (v : ℤ) (h : 0 ≤ v) : jsMod3 (v : ℚ) = ((v % 3 : ℤ) : ℚ) := by
  unfold jsMod3
  rw [jsTrunc_intCast_div_three v h, Int.emod_def]
  push_cast
  ring

/-- Exact behaviour of the loop on a non-negative integer start value:
it stops at `v - v % 3` after `v % 3` iterations (at most two). -/
lemma divLoop_int (v : ℤ) (h : 0 ≤ v) :
    divLoop 101 (v : ℚ) 0 = (((v - v % 3 : ℤ) : ℚ), (v % 3).toNat) := by
  have h3 : v % 3 = 0 ∨ v % 3 = 1 ∨ v % 3 = 2 := by omega
  rw [show (101 : ℕ) = 100 + 1 from rfl, divLoop_succ]
  rcases h3 with h3 | h3 | h3
  · rw [if_neg]
    · rw [h3]
      norm_num
    · rintro ⟨hm, -, -⟩
      exact hm (by rw [jsMod3_intCast v h, h3]; norm_num)
  · have hv1 : 1 ≤ v := by omega
    have hm1 : jsMod3 ((v - 1 : ℤ) : ℚ) = 0 := by
      rw [jsMod3_intCast (v - 1) (by omega), show (v - 1) % 3 = 0 from by omega]
      norm_num
    rw [if_pos ⟨by rw [jsMod3_intCast v h, h3]; norm_num,
        by exact_mod_cast hv1, by norm_num [maxIterations]⟩]
    have hc1 : (v : ℚ) - 1 = ((v - 1 : ℤ) : ℚ) := by push_cast; ring
    rw [hc1, show (100 : ℕ) = 99 + 1 from rfl, divLoop_succ, if_neg]
    · rw [h3]
      norm_num
    · rintro ⟨hm, -, -⟩
      exact hm hm1
  · have hv2 : 2 ≤ v := by omega
    have hm1 : jsMod3 ((v - 1 : ℤ) : ℚ) ≠ 0 := by
      rw [jsMod3_intCast (v - 1) (by omega), show (v - 1) % 3 = 1 from by omega]
      norm_num
    have hm2 : jsMod3 ((v - 2 : ℤ) : ℚ) = 0 := by
      rw [jsMod3_intCast (v - 2) (by omega), show (v - 2) % 3 = 0 from by omega]
      norm_num
    rw [if_pos ⟨by rw [jsMod3_intCast v h, h3]; norm_num,
        by exact_mod_cast (show (0:ℤ) < v from by omega), by norm_num [maxIterations]⟩]
    have hc1 : (v : ℚ) - 1 = ((v - 1 : ℤ) : ℚ) := by push_cast; ring
    rw [hc1, show (100 : ℕ) = 99 + 1 from rfl, divLoop_succ, if_pos
        ⟨hm1, by exact_mod_cast (show (0:ℤ) < v - 1 from by omega), by norm_num [maxIterations]⟩]
    have hc2 : ((v - 1 : ℤ) : ℚ) - 1 = ((v - 2 : ℤ) : ℚ) := by push_cast; ring
    rw [hc2, show (99 : ℕ) = 98 + 1 from rfl, divLoop_succ, if_neg]
    · rw [h3]
      norm_num
      rfl
    · rintro ⟨hm, -, -⟩
      exact hm hm2

/-- On any integer start value the loop performs at most two iterations. -/
lemma divLoop_intCast_iter_le_two (w : ℤ) : (divLoop 101 (w : ℚ) 0).2 ≤ 2 := by
  rcases le_or_lt 0 w with h | h
  · rw [divLoop_int w h]
    have : w % 3 ≤ 2 := by omega
    simpa using by omega
  · rw [divLoop_nonpos 101 _ 0 (by exact_mod_cast h.le)]
    norm_num

/-- A half-integer is never a JS-multiple of 3, whatever the truncation
returns. -/
lemma jsMod3_half_ne (j : ℤ) : jsMod3 (((2 * j + 1 : ℤ) : ℚ) / 2) ≠ 0 := by
  unfold jsMod3
  intro heq
  have h2 : ((2 * j + 1 : ℤ) : ℚ) = 6 * ((jsTrunc (((2 * j + 1 : ℤ) : ℚ) / 2 / 3) : ℤ) : ℚ) := by
    linarith
  have h4 : (2 * j + 1 : ℤ) = 6 * jsTrunc (((2 * j + 1 : ℤ) : ℚ) / 2 / 3) := by
    exact_mod_cast h2
  omega

/-- On a positive half-integer start value the loop only decrements: `n`
passes are taken whenever the guard and the value allow them. -/
lemma divLoop_half_steps (n : ℕ) :
    ∀ (fuel iterations : ℕ) (j : ℤ), (n : ℤ) ≤ j + 1 → iterations + n ≤ 100 → n ≤ fuel →
      divLoop fuel (((2 * j + 1 : ℤ) : ℚ) / 2) iterations =
        divLoop (fuel - n) (((2 * (j - n) + 1 : ℤ) : ℚ) / 2) (iterations + n) := by
  induction n with
  | zero =>
    intro fuel iterations j _ _ _
    norm_num
  | succ m ih =>
    intro fuel iterations j hj hiter hfuel
    obtain ⟨f, rfl⟩ : ∃ f, fuel = f + 1 := ⟨fuel - 1, by omega⟩
    have hpos : (0 : ℚ) < ((2 * j + 1 : ℤ) : ℚ) / 2 := by
      have hz : (0 : ℤ) < 2 * j + 1 := by omega
      have : (0 : ℚ) < ((2 * j + 1 : ℤ) : ℚ) := by exact_mod_cast hz
      linarith
    rw [divLoop_succ, if_pos ⟨jsMod3_half_ne j, hpos,
        by simp only [maxIterations]; omega⟩]
    have hstep : ((2 * j + 1 : ℤ) : ℚ) / 2 - 1 = ((2 * (j - 1) + 1 : ℤ) : ℚ) / 2 := by
      push_cast
      ring
    rw [hstep, ih f (iterations + 1) (j - 1) (by omega) (by omega) (by omega)]
    have h1 : f + 1 - (m + 1) = f - m := by omega
    have h2 : j - 1 - (m : ℤ) = j - ((m + 1 : ℕ) : ℤ) := by push_cast; ring
    have h3 : iterations + 1 + m = iterations + (m + 1) := by omega
    rw [h1, h2, h3]

/-- The closed form stated by the spec for comparison with the loop-based
adjuster: "this loop is mathematically equivalent to `v - (v % 3)`", with
`v = raw - subtrahend` and `%` the JS remainder.  This definition follows
the spec text, not the source, and exists only to be compared with the
loop. -/
def closedFormAdjust (raw subtrahend : ℚ) : ℚ :=
  (raw - subtrahend) - jsMod3 (raw - subtrahend)

/-!  Serial-number allocation, from the `SlabEntry` model
(`src/unnamed/part_014`).  Only the serial numbers of the entries of one
sheet matter for the dense-sequence claim; a sheet's entries are modelled
as the list of their serials in insertion order. -/

/-- `SELECT COALESCE(MAX(serial_number), 0) ...` over the sheet's
entries. -/
def maxSerial (serials : List ℕ) : ℕ := serials.foldr max 0

/-- `SlabEntry.create` (lines 29-99): the new entry receives serial
`COALESCE(MAX(serial_number), 0) + 1`, read and inserted in one
transaction. -/
def slabEntryCreate (serials : List ℕ) : List ℕ :=
  serials ++ [maxSerial serials + 1]

/-- The serial numbers assigned by the `for (const entryData of
slabEntriesData)` loop of `batchCreate`: starting from `currentSerial`,
each entry increments and takes the next value. -/
def batchSerialsFrom : ℕ → ℕ → List ℕ
  | _, 0 => []
  | currentSerial, n + 1 => (currentSerial + 1) :: batchSerialsFrom (currentSerial + 1) n

/-- `SlabEntry.batchCreate` (lines 104-185): reads
`COALESCE(MAX(serial_number), 0)` once, then assigns consecutive serials
to the `n` new entries in a single transaction. -/
def slabEntryBatchCreate (serials : List ℕ) (n : ℕ) : List ℕ :=
  serials ++ batchSerialsFrom (maxSerial serials) n

/-- An insertion into a sheet: a single `create` or a `batchCreate` of
`n` entries.  (The claim considers sequences of inserts with no
deletes.) -/
inductive InsertOp where
  | single
  | batch (n : ℕ)
deriving DecidableEq, Repr

def applyInsert (serials : List ℕ) : InsertOp → List ℕ
  | InsertOp.single => slabEntryCreate serials
  | InsertOp.batch n => slabEntryBatchCreate serials n

def applyInserts (serials : List ℕ) (ops : List InsertOp) : List ℕ :=
  ops.foldl applyInsert serials

/-- Number of entries an operation inserts. -/
def insertCount : InsertOp → ℕ
  | InsertOp.single => 1
  | InsertOp.batch n => n

lemma batchSerialsFrom_eq_range' (m n : ℕ) :
    batchSerialsFrom m n = List.range' (m + 1) n := by
  induction n generalizing m with
  | zero => rfl
  | succ k ih =>
    rw [batchSerialsFrom, List.range'_succ, ih]

lemma foldr_max_range' (s k : ℕ) : (List.range' s (k + 1)).foldr max 0 = s + k := by
  induction k generalizing s with
  | zero => simp [List.range']
  | succ k ih =>
    rw [List.range'_succ, List.foldr_cons, ih (s + 1)]
    omega

lemma maxSerial_range' (k : ℕ) : maxSerial (List.range' 1 k) = k := by
  cases k with
  | zero => rfl
  | succ j =>
    rw [maxSerial, foldr_max_range']
    omega

/-- Inserting into a dense prefix `[1..k]` keeps the serials dense. -/
lemma applyInsert_range' (k : ℕ) (op : InsertOp) :
    applyInsert (List.range' 1 k) op = List.range' 1 (k + insertCount op) := by
  cases op with
  | single =>
    simp only [applyInsert, slabEntryCreate, maxSerial_range', insertCount]
    have h := List.range'_1_concat 1 k
    simpa [Nat.add_comm] using h.symm
  | batch n =>
    simp only [applyInsert, slabEntryBatchCreate, maxSerial_range', insertCount,
      batchSerialsFrom_eq_range']
    have h := List.range'_append_1 1 k n
    simpa [Nat.add_comm] using h

/-!  Sheet-total maintenance, from the
`update_measurement_sheet_total` trigger (`schema.sql` lines 89-113),
fired `AFTER INSERT`, `AFTER UPDATE` and `AFTER DELETE` on
`slab_entries` in the same transaction as the mutating statement.  A
sheet is modelled by the `square_feet` values of its current entries
plus the stored `total_square_feet` column. -/

structure MeasurementSheet where
  entries : List ℚ
  total_square_feet : ℚ
deriving DecidableEq, Repr

/-- The trigger body: `SET total_square_feet = (SELECT
COALESCE(SUM(square_feet), 0) FROM slab_entries WHERE
measurement_sheet_id = ...)`; `List.sum [] = 0` models the `COALESCE`. -/
def runSheetTotalTrigger (s : MeasurementSheet) : MeasurementSheet :=
  { s with total_square_feet := s.entries.sum }

/-- A committed mutation of a sheet's slab entries: insert a new entry,
update the `square_feet` of the entry at a position, or delete the entry
at a position.  Each statement fires the trigger in the same atomic
unit. -/
inductive SlabMutation where
  | insert (squareFeet : ℚ)
  | update (idx : ℕ) (squareFeet : ℚ)
  | delete (idx : ℕ)
deriving DecidableEq, Repr

def applyMutation (s : MeasurementSheet) : SlabMutation → MeasurementSheet
  | SlabMutation.insert q => runSheetTotalTrigger { s with entries := s.entries ++ [q] }
  | SlabMutation.update i q => runSheetTotalTrigger { s with entries := s.entries.set i q }
  | SlabMutation.delete i => runSheetTotalTrigger { s with entries := s.entries.eraseIdx i }

def applyMutations (s : MeasurementSheet) (ops : List SlabMutation) : MeasurementSheet :=
  ops.foldl applyMutation s

lemma applyMutation_total (s : MeasurementSheet) (op : SlabMutation) :
    (applyMutation s op).total_square_feet = (applyMutation s op).entries.sum := by
  cases op <;> rfl

/-!  The cache wrapper, from `src/server/config/redis.js` lines 55-114.
The Redis client is modelled by a key-value store plus two flags:
`configured` (`process.env.REDIS_HOST` is set) and `up` (when `false`,
every client command throws, exercising the `catch` branches).  Stored
values are kept as strings; `JSON.parse ∘ JSON.stringify` is the
identity on the round-trips the wrapper performs.  The wrapper functions
return plain (non-`Except`) results: the source catches every error, so
no error can propagate to a caller. -/

structure RedisEnv where
  configured : Bool
  up : Bool
  store : List (String × String)
deriving DecidableEq, Repr

/-- `client.get key`: the value stored under a key, if any. -/
def storeLookup (store : List (String × String)) (key : String) : Option String :=
  (store.find? (fun kv => kv.1 == key)).map (fun kv => kv.2)

/-- Removal of one key (used by `client.del` and to overwrite on
`setEx`); Redis `DEL` of an absent key succeeds and removes nothing. -/
def storeRemove (store : List (String × String)) (key : String) : List (String × String) :=
  store.filter (fun kv => kv.1 != key)

/-- Redis `KEYS` glob matching, `*` matching any (possibly empty)
substring.  Structural fuel `|pattern| + |key| + 1` strictly dominates
the recursion, which shrinks `pattern + key` at every step. -/
def globMatchFuel : ℕ → List Char → List Char → Bool
  | 0, _, _ => false
  | _ + 1, [], [] => true
  | f + 1, '*' :: ps, [] => globMatchFuel f ps []
  | f + 1, '*' :: ps, c :: cs =>
    globMatchFuel f ps (c :: cs) || globMatchFuel f ('*' :: ps) cs
  | f + 1, p :: ps, c :: cs => p == c && globMatchFuel f ps cs
  | _ + 1, _ :: _, [] => false
  | _ + 1, [], _ :: _ => false

def globMatch (pattern key : String) : Bool :=
  globMatchFuel (pattern.length + key.length + 1) pattern.data key.data

/-- `cache.get` (lines 59-68): `null` when Redis is not configured, the
parsed stored value on success, `null` when the client throws. -/
def cacheGet (env : RedisEnv) (key : String) : Option String × RedisEnv :=
  if env.configured = false then (none, env)
  else if env.up = false then (none, env)
  else (storeLookup env.store key, env)

/-- `cache.set` (lines 73-82): `false` when not configured or on a client
error, otherwise stores the value and returns `true`.  (Expiration is
not modelled: no claim mentions time.) -/
def cacheSet (env : RedisEnv) (key value : String) : Bool × RedisEnv :=
  if env.configured = false then (false, env)
  else if env.up = false then (false, env)
  else (true, { env with store := (key, value) :: storeRemove env.store key })

/-- `cache.del` (lines 87-96): `false` when not configured or on a client
error, otherwise deletes the key (present or not) and returns `true`. -/
def cacheDel (env : RedisEnv) (key : String) : Bool × RedisEnv :=
  if env.configured = false then (false, env)
  else if env.up = false then (false, env)
  else (true, { env with store := storeRemove env.store key })

/-- `cache.clearPattern` (lines 101-113): looks up `client.keys(pattern)`
and deletes them only `if (keys.length > 0)`; returns `true` either way,
`false` when not configured or on a client error. -/
def cacheClearPattern (env : RedisEnv) (pattern : String) : Bool × RedisEnv :=
  if env.configured = false then (false, env)
  else if env.up = false then (false, env)
  else
    let keys := (env.store.map (fun kv => kv.1)).filter (fun k => globMatch pattern k)
    if keys = [] then (true, env)
    else (true, { env with store := env.store.filter (fun kv => globMatch pattern kv.1 = false) })

/-- Either outcome shape of the shared adjuster tail (ceiling test plus
zero floor) applied to a finished loop: the returned value is `0` or a
JS-multiple of 3. -/
lemma adjusterTail_cases (v : ℚ) :
    (if maxIterations ≤ (divLoop 101 v 0).2 then (0 : ℚ)
      else max (divLoop 101 v 0).1 0) = 0 ∨
    jsMod3 (if maxIterations ≤ (divLoop 101 v 0).2 then (0 : ℚ)
      else max (divLoop 101 v 0).1 0) = 0 := by
  by_cases hits : maxIterations ≤ (divLoop 101 v 0).2
  · rw [if_pos hits]
    exact Or.inl rfl
  · rw [if_neg hits]
    rcases divLoop_post 101 v 0 (by omega) with hm | hle | hceil
    · by_cases h0 : 0 ≤ (divLoop 101 v 0).1
      · rw [max_eq_left h0]
        exact Or.inr hm
      · rw [max_eq_right (le_of_not_le h0)]
        exact Or.inl rfl
    · rw [max_eq_right hle]
      exact Or.inl rfl
    · exact absurd hceil hits

set_option maxHeartbeats 2000000 in
/-- C1: `calculateSquareFeet` returns exactly the stated result on each of
the five concrete inputs of the spec. -/
theorem calculateSquareFeet_concrete_cases :
    calculateSquareFeet 144 144 "retail" = Except.ok ⟨144, 144, 144⟩ ∧
    calculateSquareFeet 150 146 "granite_shops" = Except.ok ⟨147, 144, 147⟩ ∧
    calculateSquareFeet 149 145 "granite_shops" = Except.ok ⟨144, 141, 141⟩ ∧
    calculateSquareFeet 150 100 "builders" = Except.ok ⟨147, 100, 102.08⟩ ∧
    calculateSquareFeet 3 2 "exporters" = Except.ok ⟨0, 0, 0⟩ := by
  refine ⟨?_, ?_, ?_, ?_, ?_⟩
  · norm_num [calculateSquareFeet, calculateRetail, lengthValidationErrors,
      breadthValidationErrors, customerTypeValidationErrors, customerTypeValues,
      CUSTOMER_TYPES_RETAIL, round2, jsRound]
    all_goals simp
  · norm_num [calculateSquareFeet, calculateGraniteShops, lengthValidationErrors,
      breadthValidationErrors, customerTypeValidationErrors, customerTypeValues,
      CUSTOMER_TYPES_RETAIL, CUSTOMER_TYPES_GRANITE_SHOPS,
      processLengthForDivisibility, processBreadthForDivisibility,
      divLoop, jsMod3, jsTrunc, maxIterations, max_def, round2, jsRound]
    all_goals simp
  · norm_num [calculateSquareFeet, calculateGraniteShops, lengthValidationErrors,
      breadthValidationErrors, customerTypeValidationErrors, customerTypeValues,
      CUSTOMER_TYPES_RETAIL, CUSTOMER_TYPES_GRANITE_SHOPS,
      processLengthForDivisibility, processBreadthForDivisibility,
      divLoop, jsMod3, jsTrunc, maxIterations, max_def, round2, jsRound]
    all_goals simp
  · norm_num [calculateSquareFeet, calculateBuilders, lengthValidationErrors,
      breadthValidationErrors, customerTypeValidationErrors, customerTypeValues,
      CUSTOMER_TYPES_RETAIL, CUSTOMER_TYPES_GRANITE_SHOPS, CUSTOMER_TYPES_BUILDERS,
      processLengthForDivisibility, divLoop, jsMod3, jsTrunc, maxIterations,
      max_def, round2, jsRound]
    all_goals simp
  · norm_num [calculateSquareFeet, calculateExporters, lengthValidationErrors,
      breadthValidationErrors, customerTypeValidationErrors, customerTypeValues,
      CUSTOMER_TYPES_RETAIL, CUSTOMER_TYPES_GRANITE_SHOPS, CUSTOMER_TYPES_BUILDERS,
      CUSTOMER_TYPES_EXPORTERS, max_def, round2, jsRound]
    all_goals simp

/-- C2: on every rational input, each divisibility adjuster returns `0`
or a value whose JS remainder modulo 3 is `0`, over all four exit paths
(early return below the subtrahend, normal loop exit, negative-value
floor, and iteration ceiling). -/
theorem divisibilityAdjusters_zero_or_multiple_of_three (q : ℚ) :
    (processLengthForDivisibility q = 0 ∨
      jsMod3 (processLengthForDivisibility q) = 0) ∧
    (processBreadthForDivisibility q = 0 ∨
      jsMod3 (processBreadthForDivisibility q) = 0) := by
  constructor
  · by_cases h : q < 3
    · simp only [processLengthForDivisibility, if_pos h]
      exact Or.inl (by simp)
    · simp only [processLengthForDivisibility, if_neg h]
      exact adjusterTail_cases (q - 3)
  · by_cases h : q < 2
    · simp only [processBreadthForDivisibility, if_pos h]
      exact Or.inl (by simp)
    · simp only [processBreadthForDivisibility, if_neg h]
      exact adjusterTail_cases (q - 2)

/-- C3 counterexample: at the valid fractional input `length = 10.5`
(so `raw ≥ subtrahend`), the loop-based adjuster returns `0` while the
closed form `v - (v % 3)` returns `6`, so the claimed equivalence on all
inputs with `raw ≥ subtrahend` fails. -/
theorem loop_ne_closedForm_at_fractional_input :
    (3 : ℚ) ≤ 21 / 2 ∧
    processLengthForDivisibility (21 / 2) = 0 ∧
    closedFormAdjust (21 / 2) 3 = 6 ∧
    processLengthForDivisibility (21 / 2) ≠ closedFormAdjust (21 / 2) 3 := by
  have h1 : processLengthForDivisibility (21 / 2) = 0 := by
    norm_num [processLengthForDivisibility, divLoop, jsMod3, jsTrunc,
      maxIterations, max_def]
  have h2 : closedFormAdjust (21 / 2) 3 = 6 := by
    norm_num [closedFormAdjust, jsMod3, jsTrunc]
  refine ⟨by norm_num, h1, h2, ?_⟩
  rw [h1, h2]
  norm_num

/-- C3 (amended): the loop-based adjusters agree with the closed form
`v - (v % 3)` on all integer inputs with `raw ≥ subtrahend` (the original
claim quantified over all numeric inputs, which fails on fractional ones:
see the counterexample). -/
theorem loop_eq_closedForm_on_integer_inputs :
    (∀ z : ℤ, 3 ≤ z →
      processLengthForDivisibility (z : ℚ) = closedFormAdjust (z : ℚ) 3) ∧
    (∀ z : ℤ, 2 ≤ z →
      processBreadthForDivisibility (z : ℚ) = closedFormAdjust (z : ℚ) 2) := by
  constructor
  · intro z hz
    have hv : (0 : ℤ) ≤ z - 3 := by omega
    have hcast : (z : ℚ) - 3 = ((z - 3 : ℤ) : ℚ) := by push_cast; ring
    have hnl : ¬((z : ℚ) < 3) := by
      rw [not_lt]
      exact_mod_cast hz
    simp only [processLengthForDivisibility, if_neg hnl, hcast,
      divLoop_int (z - 3) hv]
    rw [if_neg (by simp only [maxIterations]; omega)]
    rw [max_eq_left (by exact_mod_cast (show (0 : ℤ) ≤ (z - 3) - (z - 3) % 3 from by omega))]
    rw [closedFormAdjust, hcast, jsMod3_intCast (z - 3) hv]
    push_cast
    ring
  · intro z hz
    have hv : (0 : ℤ) ≤ z - 2 := by omega
    have hcast : (z : ℚ) - 2 = ((z - 2 : ℤ) : ℚ) := by push_cast; ring
    have hnl : ¬((z : ℚ) < 2) := by
      rw [not_lt]
      exact_mod_cast hz
    simp only [processBreadthForDivisibility, if_neg hnl, hcast,
      divLoop_int (z - 2) hv]
    rw [if_neg (by simp only [maxIterations]; omega)]
    rw [max_eq_left (by exact_mod_cast (show (0 : ℤ) ≤ (z - 2) - (z - 2) % 3 from by omega))]
    rw [closedFormAdjust, hcast, jsMod3_intCast (z - 2) hv]
    push_cast
    ring

/-- Witness for the amended C3 at concrete integer inputs. -/
theorem loop_eq_closedForm_on_integer_inputs_witness :
    processLengthForDivisibility ((150 : ℤ) : ℚ) = closedFormAdjust ((150 : ℤ) : ℚ) 3 ∧
    processBreadthForDivisibility ((146 : ℤ) : ℚ) = closedFormAdjust ((146 : ℤ) : ℚ) 2 :=
  ⟨loop_eq_closedForm_on_integer_inputs.1 150 (by norm_num),
    loop_eq_closedForm_on_integer_inputs.2 146 (by norm_num)⟩

/-- C10: on every integer raw input the decrement loop finishes within two
iterations (so the 100-iteration ceiling branch cannot fire), while the
valid fractional input `length = 203.5` drives the loop to the ceiling and
the adjuster returns `0`. -/
theorem divLoop_iteration_bounds :
    (∀ z : ℤ, (divLoop 101 ((z : ℚ) - 3) 0).2 ≤ 2 ∧
      (divLoop 101 ((z : ℚ) - 2) 0).2 ≤ 2) ∧
    processLengthForDivisibility (407 / 2) = 0 ∧
    maxIterations ≤ (divLoop 101 ((407 : ℚ) / 2 - 3) 0).2 := by
  have hrun : divLoop 101 ((407 : ℚ) / 2 - 3) 0 = (((2 * 100 + 1 : ℤ) : ℚ) / 2, 100) := by
    have hval : (407 : ℚ) / 2 - 3 = ((2 * (200 : ℤ) + 1 : ℤ) : ℚ) / 2 := by norm_num
    have h100 := divLoop_half_steps 100 101 0 200 (by norm_num) (by norm_num) (by norm_num)
    rw [hval, h100]
    norm_num
    rw [show (1 : ℕ) = 0 + 1 from rfl, divLoop_succ, if_neg]
    rintro ⟨-, -, hlt⟩
    simp only [maxIterations] at hlt
    omega
  refine ⟨?_, ?_, ?_⟩
  · intro z
    constructor
    · have h := divLoop_intCast_iter_le_two (z - 3)
      have hc : ((z - 3 : ℤ) : ℚ) = (z : ℚ) - 3 := by push_cast; ring
      rwa [hc] at h
    · have h := divLoop_intCast_iter_le_two (z - 2)
      have hc : ((z - 2 : ℤ) : ℚ) = (z : ℚ) - 2 := by push_cast; ring
      rwa [hc] at h
  · simp only [processLengthForDivisibility]
    rw [if_neg (by norm_num), hrun, if_pos (by norm_num [maxIterations])]
  · rw [hrun]
    norm_num [maxIterations]

lemma lengthValidationErrors_length_one (l : ℚ) (h : ¬(0 < l ∧ l ≤ 10000)) :
    (lengthValidationErrors l).length = 1 := by
  rw [lengthValidationErrors]
  by_cases h0 : l ≤ 0
  · rw [if_pos h0]
    rfl
  · push_neg at h
    rw [if_neg h0, if_pos (h (not_le.mp h0))]
    rfl

lemma breadthValidationErrors_length_one (b : ℚ) (h : ¬(0 < b ∧ b ≤ 10000)) :
    (breadthValidationErrors b).length = 1 := by
  rw [breadthValidationErrors]
  by_cases h0 : b ≤ 0
  · rw [if_pos h0]
    rfl
  · push_neg at h
    rw [if_neg h0, if_pos (h (not_le.mp h0))]
    rfl

lemma customerTypeValidationErrors_length_one (t : String)
    (h1 : t ∉ customerTypeValues) (h2 : t ≠ "") :
    (customerTypeValidationErrors t).length = 1 := by
  rw [customerTypeValidationErrors, if_neg h2, if_pos h1]
  rfl

lemma calculateSquareFeet_validation_error (l b : ℚ) (t : String)
    (h : lengthValidationErrors l ++ breadthValidationErrors b ++
      customerTypeValidationErrors t ≠ []) :
    calculateSquareFeet l b t =
      Except.error (CalcError.validation
        (lengthValidationErrors l ++ breadthValidationErrors b ++
          customerTypeValidationErrors t)) := by
  simp only [calculateSquareFeet]
  rw [if_pos h]

set_option maxHeartbeats 1000000 in
/-- C4: when several rules are violated at once, the single thrown error
has type `validation` and carries one message per violated rule; the three
concrete invalid inputs of the spec each produce a `validation` error (in
particular the unrecognized-type input, which never reaches the
`unsupported_customer_type` throw). -/
theorem validation_collects_all_violations :
    (∀ (l b : ℚ) (t : String), ¬(0 < l ∧ l ≤ 10000) → ¬(0 < b ∧ b ≤ 10000) →
      t ∉ customerTypeValues → t ≠ "" →
      calculateSquareFeet l b t =
        Except.error (CalcError.validation
          (lengthValidationErrors l ++ breadthValidationErrors b ++
            customerTypeValidationErrors t)) ∧
      (lengthValidationErrors l).length = 1 ∧
      (breadthValidationErrors b).length = 1 ∧
      (customerTypeValidationErrors t).length = 1) ∧
    calculateSquareFeet 0 100 "retail" =
      Except.error (CalcError.validation ["Length must be greater than 0"]) ∧
    calculateSquareFeet (-1) 100 "retail" =
      Except.error (CalcError.validation ["Length must be greater than 0"]) ∧
    calculateSquareFeet 100 100 "unknown" =
      Except.error (CalcError.validation
        ["Invalid customer type: unknown. Valid types are: retail, granite_shops, builders, outstation_parties, exporters"]) := by
  refine ⟨?_, ?_, ?_, ?_⟩
  · intro l b t hl hb ht1 ht2
    have hL := lengthValidationErrors_length_one l hl
    have hB := breadthValidationErrors_length_one b hb
    have hT := customerTypeValidationErrors_length_one t ht1 ht2
    refine ⟨calculateSquareFeet_validation_error l b t ?_, hL, hB, hT⟩
    intro hnil
    have hlen := congrArg List.length hnil
    simp only [List.length_append, hL, hB, hT, List.length_nil] at hlen
    omega
  · norm_num [calculateSquareFeet, lengthValidationErrors, breadthValidationErrors,
      customerTypeValidationErrors, customerTypeValues, CUSTOMER_TYPES_RETAIL,
      CUSTOMER_TYPES_GRANITE_SHOPS, CUSTOMER_TYPES_BUILDERS,
      CUSTOMER_TYPES_OUTSTATION_PARTIES, CUSTOMER_TYPES_EXPORTERS]
    all_goals simp
  · norm_num [calculateSquareFeet, lengthValidationErrors, breadthValidationErrors,
      customerTypeValidationErrors, customerTypeValues, CUSTOMER_TYPES_RETAIL,
      CUSTOMER_TYPES_GRANITE_SHOPS, CUSTOMER_TYPES_BUILDERS,
      CUSTOMER_TYPES_OUTSTATION_PARTIES, CUSTOMER_TYPES_EXPORTERS]
    all_goals simp
  · norm_num [calculateSquareFeet, lengthValidationErrors, breadthValidationErrors,
      customerTypeValidationErrors, customerTypeValues, CUSTOMER_TYPES_RETAIL,
      CUSTOMER_TYPES_GRANITE_SHOPS, CUSTOMER_TYPES_BUILDERS,
      CUSTOMER_TYPES_OUTSTATION_PARTIES, CUSTOMER_TYPES_EXPORTERS,
      String.intercalate, List.intercalate]
    all_goals simp
    all_goals decide

/-- Witness for C4 at an input violating all three rules at once. -/
theorem validation_collects_all_violations_witness :
    calculateSquareFeet 0 0 "unknown" =
      Except.error (CalcError.validation
        (lengthValidationErrors 0 ++ breadthValidationErrors 0 ++
          customerTypeValidationErrors "unknown")) ∧
    (lengthValidationErrors 0).length = 1 ∧
    (breadthValidationErrors 0).length = 1 ∧
    (customerTypeValidationErrors "unknown").length = 1 :=
  validation_collects_all_violations.1 0 0 "unknown" (by norm_num) (by norm_num)
    (by decide) (by decide)

lemma processLengthForDivisibility_nonneg (q : ℚ) :
    0 ≤ processLengthForDivisibility q := by
  simp only [processLengthForDivisibility]
  split_ifs
  · exact le_refl 0
  · exact le_refl 0
  · exact le_max_right _ _

lemma processBreadthForDivisibility_nonneg (q : ℚ) :
    0 ≤ processBreadthForDivisibility q := by
  simp only [processBreadthForDivisibility]
  split_ifs
  · exact le_refl 0
  · exact le_refl 0
  · exact le_max_right _ _

lemma round2_nonneg (q : ℚ) (h : 0 ≤ q) : 0 ≤ round2 q := by
  rw [round2, jsRound]
  have h100 : 0 ≤ q * 100 := mul_nonneg h (by norm_num)
  have h1 : (0 : ℤ) ≤ ⌊q * 100 + 1 / 2⌋ := by
    apply Int.le_floor.mpr
    push_cast
    linarith
  exact div_nonneg (by exact_mod_cast h1) (by norm_num)

lemma calculateRetail_ok (l b : ℚ) (hl : 0 ≤ l) (hb : 0 ≤ b) :
    calculateRetail l b = Except.ok ⟨l, b, round2 (l * b / 144)⟩ ∧
      0 ≤ round2 (l * b / 144) := by
  have hsf : 0 ≤ l * b / 144 := div_nonneg (mul_nonneg hl hb) (by norm_num)
  constructor
  · simp only [calculateRetail]
    rw [if_neg (not_lt.mpr hsf)]
  · exact round2_nonneg _ hsf

lemma calculateGraniteShops_ok (l b : ℚ) :
    calculateGraniteShops l b =
      Except.ok ⟨processLengthForDivisibility l, processBreadthForDivisibility b,
        round2 (processLengthForDivisibility l * processBreadthForDivisibility b / 144)⟩ ∧
      0 ≤ round2 (processLengthForDivisibility l * processBreadthForDivisibility b / 144) := by
  have hsf : 0 ≤ processLengthForDivisibility l * processBreadthForDivisibility b / 144 :=
    div_nonneg (mul_nonneg (processLengthForDivisibility_nonneg l)
      (processBreadthForDivisibility_nonneg b)) (by norm_num)
  constructor
  · simp only [calculateGraniteShops]
    rw [if_neg (not_lt.mpr hsf)]
  · exact round2_nonneg _ hsf

lemma calculateBuilders_ok (l b : ℚ) (hb : 0 ≤ b) :
    calculateBuilders l b =
      Except.ok ⟨processLengthForDivisibility l, b,
        round2 (processLengthForDivisibility l * b / 144)⟩ ∧
      0 ≤ round2 (processLengthForDivisibility l * b / 144) := by
  have hsf : 0 ≤ processLengthForDivisibility l * b / 144 :=
    div_nonneg (mul_nonneg (processLengthForDivisibility_nonneg l) hb) (by norm_num)
  constructor
  · simp only [calculateBuilders]
    rw [if_neg (not_lt.mpr hsf)]
  · exact round2_nonneg _ hsf

lemma calculateExporters_ok (l b : ℚ) :
    calculateExporters l b =
      Except.ok ⟨max (l - 3) 0, max (b - 2) 0,
        round2 (max (l - 3) 0 * max (b - 2) 0 / 144)⟩ ∧
      0 ≤ round2 (max (l - 3) 0 * max (b - 2) 0 / 144) := by
  have hsf : 0 ≤ max (l - 3) 0 * max (b - 2) 0 / 144 :=
    div_nonneg (mul_nonneg (le_max_right _ _) (le_max_right _ _)) (by norm_num)
  constructor
  · simp only [calculateExporters]
    rw [if_neg (not_lt.mpr hsf)]
  · exact round2_nonneg _ hsf

/-- C5: for every input passing validation, the selected strategy returns
a result (no strategy throws): the defensive `Invalid calculation result`
branch is unreachable, and the computed area is non-negative (finiteness
is automatic in the exact-rational model). -/
theorem valid_inputs_never_error (l b : ℚ) (t : String)
    (hl0 : 0 < l) (hl1 : l ≤ 10000) (hb0 : 0 < b) (hb1 : b ≤ 10000)
    (ht : t ∈ customerTypeValues) :
    ∃ r, calculateSquareFeet l b t = Except.ok r ∧ 0 ≤ r.squareFeet := by
  have hL : lengthValidationErrors l = [] := by
    rw [lengthValidationErrors, if_neg (not_le.mpr hl0), if_neg (not_lt.mpr hl1)]
  have hB : breadthValidationErrors b = [] := by
    rw [breadthValidationErrors, if_neg (not_le.mpr hb0), if_neg (not_lt.mpr hb1)]
  have ht2 : t ≠ "" := by
    rintro rfl
    revert ht
    decide
  have hT : customerTypeValidationErrors t = [] := by
    rw [customerTypeValidationErrors, if_neg ht2, if_neg (not_not_intro ht)]
  have hnil : lengthValidationErrors l ++ breadthValidationErrors b ++
      customerTypeValidationErrors t = [] := by
    rw [hL, hB, hT]
    rfl
  simp only [calculateSquareFeet]
  rw [if_neg (not_ne_iff.mpr hnil)]
  simp only [customerTypeValues, CUSTOMER_TYPES_RETAIL, CUSTOMER_TYPES_GRANITE_SHOPS,
    CUSTOMER_TYPES_BUILDERS, CUSTOMER_TYPES_OUTSTATION_PARTIES, CUSTOMER_TYPES_EXPORTERS,
    List.mem_cons, List.not_mem_nil, or_false] at ht
  rcases ht with rfl | rfl | rfl | rfl | rfl
  · rw [if_pos (by decide)]
    have h := calculateRetail_ok l b hl0.le hb0.le
    exact ⟨_, h.1, h.2⟩
  · rw [if_neg (by decide), if_pos (by decide)]
    have h := calculateGraniteShops_ok l b
    exact ⟨_, h.1, h.2⟩
  · rw [if_neg (by decide), if_neg (by decide), if_pos (by decide)]
    have h := calculateBuilders_ok l b hb0.le
    exact ⟨_, h.1, h.2⟩
  · rw [if_neg (by decide), if_neg (by decide), if_neg (by decide), if_neg (by decide),
      if_pos (by decide)]
    have h := calculateGraniteShops_ok l b
    exact ⟨_, h.1, h.2⟩
  · rw [if_neg (by decide), if_neg (by decide), if_neg (by decide), if_pos (by decide)]
    have h := calculateExporters_ok l b
    exact ⟨_, h.1, h.2⟩

/-- Witness for C5 at a concrete valid input. -/
theorem valid_inputs_never_error_witness :
    ∃ r, calculateSquareFeet 144 144 "retail" = Except.ok r ∧ 0 ≤ r.squareFeet :=
  valid_inputs_never_error 144 144 "retail" (by norm_num) (by norm_num)
    (by norm_num) (by norm_num) (by decide)

/-- C6: `calculateOutstationParties` delegates to `calculateGraniteShops`,
so the two strategies agree on final dimensions and area for every
input. -/
theorem outstationParties_eq_graniteShops (length breadth : ℚ) :
    calculateOutstationParties length breadth = calculateGraniteShops length breadth := rfl

lemma applyInserts_range' (ops : List InsertOp) :
    ∀ k, applyInserts (List.range' 1 k) ops =
      List.range' 1 (k + (ops.map insertCount).sum) := by
  induction ops with
  | nil =>
    intro k
    simp [applyInserts]
  | cons op rest ih =>
    intro k
    show applyInserts (applyInsert (List.range' 1 k) op) rest = _
    rw [applyInsert_range', ih]
    congr 1
    simp only [List.map_cons, List.sum_cons]
    omega

/-- C7: `create` assigns serial `max + 1` (so `1` on an empty sheet),
`batchCreate` assigns the `n` consecutive serials `max+1 .. max+n`, and
after any sequence of single or batch inserts into an initially empty
sheet the serials are exactly `1 .. N` — dense, no gaps, no
duplicates. -/
theorem slabEntry_serials_dense :
    (∀ serials, slabEntryCreate serials = serials ++ [maxSerial serials + 1]) ∧
    (∀ serials n, slabEntryBatchCreate serials n =
      serials ++ List.range' (maxSerial serials + 1) n) ∧
    (∀ ops, applyInserts [] ops = List.range' 1 ((ops.map insertCount).sum)) := by
  refine ⟨fun _ => rfl, fun serials n => ?_, fun ops => ?_⟩
  · rw [slabEntryBatchCreate, batchSerialsFrom_eq_range']
  · simpa using applyInserts_range' ops 0

/-- C8: after every committed mutation of a sheet's entries (regardless of
the stored total before it), the trigger leaves `total_square_feet` equal
to the recomputed sum of the current entries' areas, and a sheet left with
no entries gets total `0` (the `COALESCE`). -/
theorem sheet_total_equals_entry_sum :
    (∀ (s : MeasurementSheet) (ops : List SlabMutation), ops ≠ [] →
      (applyMutations s ops).total_square_feet = (applyMutations s ops).entries.sum) ∧
    (∀ (s : MeasurementSheet) (op : SlabMutation), (applyMutation s op).entries = [] →
      (applyMutation s op).total_square_feet = 0) := by
  constructor
  · intro s ops h
    induction ops generalizing s with
    | nil => exact absurd rfl h
    | cons op rest ih =>
      show (applyMutations (applyMutation s op) rest).total_square_feet = _
      cases rest with
      | nil => exact applyMutation_total s op
      | cons op2 rest2 => exact ih (applyMutation s op) (by simp)
  · intro s op h
    rw [applyMutation_total, h]
    rfl

/-- Witness for C8: one concrete mutation sequence and one concrete
emptying delete. -/
theorem sheet_total_equals_entry_sum_witness :
    (applyMutations ⟨[], 99⟩ [SlabMutation.insert 2]).total_square_feet =
      (applyMutations ⟨[], 99⟩ [SlabMutation.insert 2]).entries.sum ∧
    (applyMutation ⟨[3], 3⟩ (SlabMutation.delete 0)).total_square_feet = 0 :=
  ⟨sheet_total_equals_entry_sum.1 ⟨[], 99⟩ [SlabMutation.insert 2] (by simp),
    sheet_total_equals_entry_sum.2 ⟨[3], 3⟩ (SlabMutation.delete 0) rfl⟩

lemma storeRemove_of_lookup_none (store : List (String × String)) (key : String)
    (h : storeLookup store key = none) : storeRemove store key = store := by
  have hfind : store.find? (fun kv => kv.1 == key) = none := by
    rcases hf : store.find? (fun kv => kv.1 == key) with _ | kv
    · exact hf
    · rw [storeLookup, hf] at h
      simp at h
  rw [storeRemove, List.filter_eq_self]
  intro kv hkv
  have := List.find?_eq_none.mp hfind kv hkv
  simp only [bne]
  simp only [Bool.not_eq_true] at this ⊢
  simp [this]

/-- C9: every cache operation is total and degrades instead of
propagating an underlying failure — `get` answers `null` and the three
mutators answer `false` whenever Redis is unconfigured or the client
throws — and invalidation is idempotent: deleting an absent key and
clearing a pattern matching no keys succeed without touching the
store. -/
theorem cache_never_propagates :
    (∀ (env : RedisEnv) (k : String), env.configured = false ∨ env.up = false →
      (cacheGet env k).1 = none) ∧
    (∀ (env : RedisEnv) (k v : String), env.configured = false ∨ env.up = false →
      (cacheSet env k v).1 = false) ∧
    (∀ (env : RedisEnv) (k : String), env.configured = false ∨ env.up = false →
      (cacheDel env k).1 = false) ∧
    (∀ (env : RedisEnv) (p : String), env.configured = false ∨ env.up = false →
      (cacheClearPattern env p).1 = false) ∧
    (∀ (env : RedisEnv) (k : String), env.configured = true → env.up = true →
      storeLookup env.store k = none → cacheDel env k = (true, env)) ∧
    (∀ (env : RedisEnv) (p : String), env.configured = true → env.up = true →
      ((env.store.map (fun kv => kv.1)).filter (fun k => globMatch p k)) = [] →
      cacheClearPattern env p = (true, env)) := by
  refine ⟨?_, ?_, ?_, ?_, ?_, ?_⟩
  · intro env k h
    rw [cacheGet]
    by_cases hc : env.configured = false
    · rw [if_pos hc]
    · rw [if_neg hc, if_pos (h.resolve_left hc)]
  · intro env k v h
    rw [cacheSet]
    by_cases hc : env.configured = false
    · rw [if_pos hc]
    · rw [if_neg hc, if_pos (h.resolve_left hc)]
  · intro env k h
    rw [cacheDel]
    by_cases hc : env.configured = false
    · rw [if_pos hc]
    · rw [if_neg hc, if_pos (h.resolve_left hc)]
  · intro env p h
    rw [cacheClearPattern]
    by_cases hc : env.configured = false
    · rw [if_pos hc]
    · rw [if_neg hc, if_pos (h.resolve_left hc)]
  · intro env k hc hu habsent
    rw [cacheDel, if_neg (by rw [hc]; simp), if_neg (by rw [hu]; simp),
      storeRemove_of_lookup_none env.store k habsent]
  · intro env p hc hu hkeys
    rw [cacheClearPattern, if_neg (by rw [hc]; simp), if_neg (by rw [hu]; simp)]
    simp only [hkeys]
    simp

/-- Witness for C9 at concrete cache states. -/
theorem cache_never_propagates_witness :
    (cacheGet ⟨false, true, []⟩ "k").1 = none ∧
    (cacheSet ⟨true, false, []⟩ "k" "v").1 = false ∧
    (cacheDel ⟨true, false, []⟩ "k").1 = false ∧
    (cacheClearPattern ⟨true, false, []⟩ "p").1 = false ∧
    cacheDel ⟨true, true, [("a", "1")]⟩ "b" = (true, ⟨true, true, [("a", "1")]⟩) ∧
    cacheClearPattern ⟨true, true, []⟩ "measurement_sheets:*" = (true, ⟨true, true, []⟩) :=
  ⟨cache_never_propagates.1 ⟨false, true, []⟩ "k" (Or.inl rfl),
    cache_never_propagates.2.1 ⟨true, false, []⟩ "k" "v" (Or.inr rfl),
    cache_never_propagates.2.2.1 ⟨true, false, []⟩ "k" (Or.inr rfl),
    cache_never_propagates.2.2.2.1 ⟨true, false, []⟩ "p" (Or.inr rfl),
    cache_never_propagates.2.2.2.2.1 ⟨true, true, [("a", "1")]⟩ "b" rfl rfl rfl,
    cache_never_propagates.2.2.2.2.2 ⟨true, true, []⟩ "measurement_sheets:*" rfl rfl rfl⟩
